import Mathlib

/-
  Verification development for the lkml-bot feed-message correlation engine.

  The Python sources are shallowly embedded: Python `str` is modelled as a
  list of characters, `None` as `Option.none`, database tables as lists of
  rows, and every call into an external collaborator (chat-platform sender,
  repository session, configuration lookup) is abstracted as a field of an
  `Env` record supplying that collaborator response.  Falsy string checks
  (`if not s:`) are modelled by emptiness tests, matching Python truthiness.
  Python `list.sort(key=...)` is a stable ascending sort; it is modelled by
  the stable `List.insertionSort` on the same key, which produces the same
  list as any stable sort for that key.
-/

namespace LkmlBot

/-- Python `str`, modelled as a list of characters. -/
abbrev Str := List Char

/-- Python `str.strip()`: drop whitespace from both ends. -/
def pyStrip (s : Str) : Str :=
  ((s.dropWhile Char.isWhitespace).reverse.dropWhile Char.isWhitespace).reverse

/-- Helper for `pySplit`: accumulates the current token in reverse. -/
def pySplitAux : Str → Str → List Str
  | [], acc => if acc.isEmpty then [] else [acc.reverse]
  | c :: cs, acc =>
    if c.isWhitespace then
      if acc.isEmpty then pySplitAux cs [] else acc.reverse :: pySplitAux cs []
    else pySplitAux cs (c :: acc)

/-- Python `str.split()` with no argument: split on runs of whitespace,
discarding empty tokens. -/
def pySplit (s : Str) : List Str := pySplitAux s []

/-- Python substring test `needle in hay` (contiguous substring). -/
def strContains (hay needle : Str) : Bool :=
  (List.range (hay.length + 1)).any (fun i => needle.isPrefixOf (hay.drop i))

/-- Python truthiness of an optional string: `None` and `""` are falsy. -/
def optStrTruthy : Option Str → Bool
  | none => false
  | some s => !s.isEmpty

/-- Classification record produced by `parse_patch_subject`
(`feed_message_classifier`): patch-subject data for one message. -/
structure PatchInfo where
  is_patch : Bool
  is_cover_letter : Bool
  version : Option Str
  index : Option Int
  total : Option Int
deriving DecidableEq

/-- The `MessageClassification` as consumed by
`FeedMessageService.process_email_message`. -/
structure Classification where
  is_patch : Bool
  is_reply : Bool
  is_series_patch : Bool
  series_message_id : Option Str
  patch_info : Option PatchInfo
deriving DecidableEq

/-- The `FeedMessageData` (`db/repo/feed_message_repository.py`): one stored
mailing-list entry.  `received_at` is modelled as an integer timestamp. -/
structure FeedMessageData where
  subsystem_name : Str := []
  message_id_header : Str
  subject : Str := []
  author : Str := []
  author_email : Str := []
  message_id : Option Str := none
  in_reply_to_header : Option Str := none
  content : Option Str := none
  url : Option Str := none
  received_at : Option Nat := none
  is_patch : Bool := false
  is_reply : Bool := false
  is_series_patch : Bool := false
  patch_version : Option Str := none
  patch_index : Option Int := none
  patch_total : Option Int := none
  is_cover_letter : Bool := false
  series_message_id : Option Str := none
deriving DecidableEq

/-- The `SeriesPatchInfo` (`service/types.py`): one entry of a series listing. -/
structure SeriesPatchInfo where
  subject : Str
  patch_index : Int
  patch_total : Int
  message_id : Str
  url : Str
deriving DecidableEq

/-- Service-layer `FeedMessage` (`service/types.py`), produced by
`FeedMessageService._convert_to_service_feed_message`. -/
structure ServiceFeedMessage where
  subsystem_name : Str
  message_id_header : Str
  subject : Str
  author : Str
  author_email : Str
  message_id : Option Str
  in_reply_to_header : Option Str
  content : Option Str
  url : Option Str
  received_at : Option Nat
  is_patch : Bool
  is_reply : Bool
  is_series_patch : Bool
  patch_version : Option Str
  patch_index : Option Int
  patch_total : Option Int
  is_cover_letter : Bool
  series_message_id : Option Str
  matched_filters : List Str := []
deriving DecidableEq

/-- Service-layer `PatchCard` (`service/types.py`). -/
structure PatchCardData where
  message_id_header : Str
  subsystem_name : Str := []
  platform_message_id : Str := []
  platform_channel_id : Str := []
  subject : Str := []
  author : Str := []
  url : Option Str := none
  expires_at : Option Nat := none
  is_series_patch : Bool := false
  series_message_id : Option Str := none
  patch_version : Option Str := none
  patch_index : Option Int := none
  patch_total : Option Int := none
  has_thread : Bool := false
  is_cover_letter : Bool := false
  series_patches : List SeriesPatchInfo := []
  matched_filters : List Str := []
deriving DecidableEq

/-- The `PatchThread` row (`service/types.py`, `patch_thread_repository`). -/
structure PatchThreadData where
  patch_card_message_id_header : Str
  thread_id : Str
  thread_name : Str
  is_active : Bool := true
  sub_patch_messages : List (Int × Str) := []
deriving DecidableEq

/-- The persistent store visible to the service layer: the three tables the
claims touch. -/
structure DBState where
  feedMessages : List FeedMessageData := []
  patchCards : List PatchCardData := []
  patchThreads : List PatchThreadData := []
deriving DecidableEq

/-- Python exception classes appearing in the service-layer handlers. -/
inductive PyError where
  | typeError
  | runtimeError
  | valueError
  | attributeError
deriving DecidableEq

/-- The exception tuple `(RuntimeError, ValueError, AttributeError)` used by
every `except` clause in `feed_message_service.py`. -/
def caughtByServiceHandlers : PyError → Bool
  | .runtimeError => true
  | .valueError => true
  | .attributeError => true
  | .typeError => false

/-- Outcome of `patch_card_sender.send_patch_card(temp_patch_card)`:
either a returned `(platform_message_id, platform_channel_id)` pair
(the id may be `None`), or a raised exception. -/
inductive SendOutcome where
  | ret (platform_message_id : Option Str) (platform_channel_id : Str)
  | raiseErr (e : PyError)
deriving DecidableEq

/-- Responses of the external collaborators reached during one
`_process_patch_message` invocation. -/
structure Env where
  /-- The `self.patch_card_sender` is not `None`. -/
  patch_card_sender_configured : Bool
  /-- behaviour of `patch_card_sender.send_patch_card`. -/
  send_patch_card : SendOutcome
  /-- result of the `self._should_create_patch_card(...)` sub-call
  (its own body is embedded separately as
  `should_create_patch_card_outer`). -/
  filter_outcome : Except PyError (Bool × List Str)
  /-- The `FilterConfigRepository.get_auto_watch_enabled()`. -/
  auto_watch_flag : Bool
  /-- The `self.thread_sender` is not `None`. -/
  thread_sender_configured : Bool
  /-- The `thread_service.prepare_thread_overview_data` returned data. -/
  prepare_overview_ok : Bool
  /-- The `thread_sender.create_thread_and_send_overview` result:
  `(thread_id, sub_patch_messages)`. -/
  create_thread_result : Str × List (Int × Str)

/-- The `FeedMessageRepository.find_by_message_id_header`: first stored message
with the given header. -/
def find_by_message_id_header (msgs : List FeedMessageData) (h : Str) :
    Option FeedMessageData :=
  msgs.find? (fun m => decide (m.message_id_header = h))

/-- The `PatchCardRepository.find_by_message_id_header`. -/
def find_card_by_message_id_header (cards : List PatchCardData) (h : Str) :
    Option PatchCardData :=
  cards.find? (fun c => decide (c.message_id_header = h))

/-- The `PatchThreadRepository` lookup used by
`ThreadService.find_by_message_id_header`. -/
def find_thread_by_message_id_header (threads : List PatchThreadData) (h : Str) :
    Option PatchThreadData :=
  threads.find? (fun t => decide (t.patch_card_message_id_header = h))

/-- Modelled from the spec: `FeedMessageRepository.find_by_series_message_id`
is called by `_get_series_patches_for_cover_letter` but its definition is not
under src; per the spec interface `findBySeriesId(id)` it returns all stored
messages whose `series_message_id` equals the given id. -/
def find_by_series_message_id (msgs : List FeedMessageData) (sid : Str) :
    List FeedMessageData :=
  msgs.filter (fun m => decide (m.series_message_id = some sid))

/-- Modelled from the spec: `PatchCardService.get_patch_card_with_series_data`
is not under src; per the spec it returns the stored PatchCard for the header
with series listing data attached for rendering, reading but not modifying
the store.  Only the returned row matters to the embedded callers. -/
def get_patch_card_with_series_data (db : DBState) (h : Str) :
    Option PatchCardData :=
  find_card_by_message_id_header db.patchCards h

/-- The `_extract_message_id_from_header` (`service/thread_service.py`):
strip the header, remove one enclosing angle-bracket pair, and return the
first whitespace-separated token. -/
def extract_message_id_from_header (in_reply_to_header : Option Str) :
    Option Str :=
  match in_reply_to_header with
  | none => none
  | some s =>
    if s.isEmpty then none
    else
      let cleaned := pyStrip s
      let cleaned :=
        if cleaned.head? = some '<' ∧ cleaned.getLast? = some '>' then
          (cleaned.drop 1).dropLast
        else cleaned
      match pySplit cleaned with
      | p :: _ => some (pyStrip p)
      | [] => if cleaned.isEmpty then none else some cleaned

/-- The `PatchCardFilterData` (`db/repo/patch_card_filter_repository.py`).
The condition payload is abstract here: `should_create_patch_card` only
consults it through `_matches_filter`, which the decision-table embedding
takes as a parameter. -/
structure PatchCardFilterData where
  name : Str
  enabled : Bool
  exclusive : Bool
deriving DecidableEq

/-- The `PatchCardFilterService.should_create_patch_card`
(`service/patch_card_filter_service.py`, lines 27-90).  `rules` is the
filter table; the repository call `find_all(enabled_only=True)` keeps the
enabled rows.  `matches_filter` stands for `self._matches_filter(feed_message,
patch_info, filter_data)`. -/
def should_create_patch_card
    (matches_filter : ServiceFeedMessage → PatchCardFilterData → Bool)
    (rules : List PatchCardFilterData) (feed_message : ServiceFeedMessage) :
    Bool × List Str :=
  let filters := rules.filter (·.enabled)
  if filters.isEmpty then (true, [])
  else
    let matched_filters :=
      (filters.filter (fun f => matches_filter feed_message f)).map (·.name)
    let has_exclusive_match :=
      filters.any (fun f => matches_filter feed_message f && f.exclusive)
    if has_exclusive_match then (true, matched_filters)
    else if !matched_filters.isEmpty then (true, matched_filters)
    else if filters.any (·.exclusive) then (false, [])
    else (true, [])

/-- Number of non-self parameters of `PatchCardFilterService.__init__`
(`service/patch_card_filter_service.py`, line 19: `filter_repo` only). -/
def patch_card_filter_service_init_params : Nat := 1

/-- Number of positional arguments passed to `PatchCardFilterService(...)`
by `FeedMessageService._should_create_patch_card`
(`service/feed_message_service.py`, lines 1096-1098: `filter_repo,
patch_card_repo, filter_config_repo, feed_message_repo`). -/
def patch_card_filter_service_call_args : Nat := 4

/-- The Python call protocol for `PatchCardFilterService(...)`: a
positional-argument count that differs from the `__init__` signature
raises `TypeError`. -/
def construct_patch_card_filter_service : Except PyError Unit :=
  if patch_card_filter_service_call_args = patch_card_filter_service_init_params
  then Except.ok () else Except.error PyError.typeError

/-- The `FeedMessageService._should_create_patch_card`
(`service/feed_message_service.py`, lines 1065-1109): construct the filter
service, delegate to `should_create_patch_card`, and turn any
`RuntimeError`, `ValueError` or `AttributeError` into the default-allow
result `(True, [])`.  Exceptions of other classes escape the handler. -/
def should_create_patch_card_outer
    (matches_filter : ServiceFeedMessage → PatchCardFilterData → Bool)
    (rules : List PatchCardFilterData)
    (service_feed_message : ServiceFeedMessage) :
    Except PyError (Bool × List Str) :=
  let body : Except PyError (Bool × List Str) :=
    match construct_patch_card_filter_service with
    | Except.error e => Except.error e
    | Except.ok _ =>
      Except.ok
        (should_create_patch_card matches_filter rules service_feed_message)
  match body with
  | Except.ok r => Except.ok r
  | Except.error e =>
    if caughtByServiceHandlers e then Except.ok (true, []) else Except.error e

/-- Loop body of `find_patch_in_chain`
(`service/feed_message_service.py`, lines 626-658).  The fuel counts the
remaining iterations allowed by the guard `depth < 30`; `visited` is the
visited-id set; `raw` is `current_raw` (`None` or empty ends the loop). -/
def find_patch_in_chain_aux (db : List FeedMessageData) :
    Nat → List Str → Option Str → Option FeedMessageData
  | 0, _, _ => none
  | _ + 1, _, none => none
  | fuel + 1, visited, some r =>
      if r.isEmpty then none
      else
        match extract_message_id_from_header (some r) with
        | none => none
        | some current_id =>
          if current_id ∈ visited then none
          else
            match find_by_message_id_header db current_id with
            | none => none
            | some msg =>
              if msg.is_patch && !msg.is_reply then
                if msg.is_series_patch && !msg.is_cover_letter &&
                    optStrTruthy msg.series_message_id then
                  match msg.series_message_id with
                  | none => some msg
                  | some sid =>
                    match find_by_message_id_header db sid with
                    | some cover =>
                      if cover.is_patch && !cover.is_reply then some cover
                      else some msg
                    | none => some msg
                else some msg
              else
                find_patch_in_chain_aux db fuel (current_id :: visited)
                  msg.in_reply_to_header

/-- The `find_patch_in_chain(message_id_header)`: start with an empty visited
set and `depth = 0`, i.e. 30 iterations of fuel. -/
def find_patch_in_chain (db : List FeedMessageData)
    (message_id_header : Str) : Option FeedMessageData :=
  find_patch_in_chain_aux db 30 [] (some message_id_header)

/-- The `FeedMessageRepository.create_or_update`
(`db/repo/feed_message_repository.py`, lines 134-212), sequential case:
update the existing row in place (keeping its `received_at` when the new
one is absent), otherwise insert.  The `IntegrityError` retry re-runs the
same update, so the sequential result is the same. -/
def create_or_update (store : List FeedMessageData)
    (data : FeedMessageData) : List FeedMessageData :=
  if store.any (fun r => decide (r.message_id_header = data.message_id_header)) then
    store.map (fun r =>
      if r.message_id_header = data.message_id_header then
        { data with
          received_at := match data.received_at with
            | some t => some t
            | none => r.received_at }
      else r)
  else store ++ [data]

/-- The `FeedMessageService._convert_to_service_feed_message`
(`service/feed_message_service.py`, lines 1111-1150). -/
def convert_to_service_feed_message (feed_message : FeedMessageData)
    (patch_info : Option PatchInfo) (series_message_id : Option Str) :
    ServiceFeedMessage :=
  let is_series : Bool :=
    match patch_info with
    | some pi =>
      series_message_id.isSome &&
        (match pi.total with
         | some t => decide (t > 1)
         | none => false)
    | none => false
  { subsystem_name := feed_message.subsystem_name
    message_id_header := feed_message.message_id_header
    subject := feed_message.subject
    author := feed_message.author
    author_email := feed_message.author_email
    message_id := feed_message.message_id
    in_reply_to_header := feed_message.in_reply_to_header
    content := feed_message.content
    url := feed_message.url
    received_at := feed_message.received_at
    is_patch := feed_message.is_patch
    is_reply := feed_message.is_reply
    is_series_patch := is_series
    patch_version := patch_info.bind (·.version)
    patch_index := patch_info.bind (·.index)
    patch_total := patch_info.bind (·.total)
    is_cover_letter :=
      match patch_info with
      | some pi => pi.is_cover_letter
      | none => false
    series_message_id := series_message_id
    matched_filters := [] }

/-- The element constructor of the series-listing comprehension in
`_get_series_patches_for_cover_letter` (lines 278-289): `url or ""`,
`patch_index or 0`, and `patch_info.total or 0 if patch_info else 0`. -/
def series_patch_info_of (patch_info : Option PatchInfo)
    (p : FeedMessageData) : SeriesPatchInfo :=
  { subject := p.subject
    url := p.url.getD []
    message_id := p.message_id_header
    patch_index := (p.patch_index.getD 0)
    patch_total :=
      match patch_info with
      | some pi => pi.total.getD 0
      | none => 0 }

/-- The `FeedMessageService._get_series_patches_for_cover_letter`
(`service/feed_message_service.py`, lines 268-291): for a cover letter,
collect the stored messages sharing the series id, drop index-0 entries and
the triggering message itself, and sort ascending by patch index. -/
def get_series_patches_for_cover_letter (db : DBState)
    (feed_message : FeedMessageData) (service_feed_message : ServiceFeedMessage)
    (series_message_id : Option Str) (patch_info : Option PatchInfo) :
    List SeriesPatchInfo :=
  if !(service_feed_message.is_cover_letter && optStrTruthy series_message_id)
  then []
  else
    let sub_patches :=
      find_by_series_message_id db.feedMessages (series_message_id.getD [])
    let series_patches :=
      (sub_patches.filter (fun p =>
        decide (p.patch_index ≠ some 0) &&
        decide (p.message_id_header ≠ feed_message.message_id_header))).map
        (series_patch_info_of patch_info)
    List.insertionSort (fun a b => a.patch_index ≤ b.patch_index) series_patches

/-- The `FeedMessageService._build_temp_patch_card`
(`service/feed_message_service.py`, lines 293-322): the card composed for
rendering and sending, with empty platform identity. -/
def build_temp_patch_card (feed_message : FeedMessageData)
    (service_feed_message : ServiceFeedMessage) (series_message_id : Option Str)
    (patch_info : Option PatchInfo) (series_patches : List SeriesPatchInfo) :
    PatchCardData :=
  { message_id_header := feed_message.message_id_header
    subsystem_name := feed_message.subsystem_name
    platform_message_id := []
    platform_channel_id := []
    subject := feed_message.subject
    author := feed_message.author
    url := feed_message.url
    expires_at := feed_message.received_at
    is_series_patch := service_feed_message.is_series_patch
    series_message_id := series_message_id
    patch_version := patch_info.bind (·.version)
    patch_index := patch_info.bind (·.index)
    patch_total := patch_info.bind (·.total)
    has_thread := false
    is_cover_letter := service_feed_message.is_cover_letter
    series_patches := series_patches
    matched_filters := service_feed_message.matched_filters }

/-- Modelled from the spec: `PatchCardService.create_patch_card`
(reached through `_save_patch_card_to_database`) is not under src; per the
spec (4.5) it persists, after a successful send, a PatchCard row built from
the service feed message together with the platform identity returned by
the sender, and returns the created row. -/
def create_patch_card (db : DBState)
    (service_feed_message : ServiceFeedMessage)
    (platform_message_id platform_channel_id : Str) :
    PatchCardData × DBState :=
  let card : PatchCardData :=
    { message_id_header := service_feed_message.message_id_header
      subsystem_name := service_feed_message.subsystem_name
      platform_message_id := platform_message_id
      platform_channel_id := platform_channel_id
      subject := service_feed_message.subject
      author := service_feed_message.author
      url := service_feed_message.url
      expires_at := service_feed_message.received_at
      is_series_patch := service_feed_message.is_series_patch
      series_message_id := service_feed_message.series_message_id
      patch_version := service_feed_message.patch_version
      patch_index := service_feed_message.patch_index
      patch_total := service_feed_message.patch_total
      has_thread := false
      is_cover_letter := service_feed_message.is_cover_letter
      series_patches := []
      matched_filters := service_feed_message.matched_filters }
  (card, { db with patchCards := db.patchCards ++ [card] })

/-- The `FeedMessageService._create_and_send_patch_card`
(`service/feed_message_service.py`, lines 213-266).  Returns the created
card (if any), the resulting store, and the list of cards handed to the
outbound sender.  The send step mirrors lines 239-261: a sender exception
of a caught class leaves `platform_message_id = None`; any other exception
class propagates; without a truthy platform message id nothing is saved. -/
def create_and_send_patch_card (env : Env) (db : DBState)
    (feed_message : FeedMessageData)
    (service_feed_message : ServiceFeedMessage)
    (patch_info : Option PatchInfo) (series_message_id : Option Str) :
    Except PyError (Option PatchCardData × DBState × List PatchCardData) :=
  let series_patches :=
    get_series_patches_for_cover_letter db feed_message service_feed_message
      series_message_id patch_info
  let temp_patch_card :=
    build_temp_patch_card feed_message service_feed_message series_message_id
      patch_info series_patches
  let sendStep : Except PyError (Option Str × Str) × List PatchCardData :=
    if env.patch_card_sender_configured then
      match env.send_patch_card with
      | SendOutcome.ret pmid pcid => (Except.ok (pmid, pcid), [temp_patch_card])
      | SendOutcome.raiseErr e =>
        if caughtByServiceHandlers e then (Except.ok (none, []), [temp_patch_card])
        else (Except.error e, [temp_patch_card])
    else (Except.ok (none, []), [])
  match sendStep with
  | (Except.error e, _) => Except.error e
  | (Except.ok (platform_message_id, platform_channel_id), sent) =>
    if !optStrTruthy platform_message_id then Except.ok (none, db, sent)
    else
      let (card, db1) :=
        create_patch_card db service_feed_message
          (platform_message_id.getD []) platform_channel_id
      Except.ok (some card, db1, sent)

/-- The `PatchCardRepository.mark_as_has_thread` (through the patch-card
service): set the `has_thread` flag of the card with the given header. -/
def mark_as_has_thread (cards : List PatchCardData) (h : Str) :
    List PatchCardData :=
  cards.map (fun c =>
    if c.message_id_header = h then { c with has_thread := true } else c)

/-- The `ThreadService.create` (`service/thread_service.py`, lines 323-356):
look up the patch card first and only then insert the thread row, with the
name truncated to 100 characters. -/
def thread_service_create (db : DBState) (h thread_id thread_name : Str) :
    DBState :=
  match find_card_by_message_id_header db.patchCards h with
  | none => db
  | some _ =>
    { db with patchThreads := db.patchThreads ++
        [{ patch_card_message_id_header := h
           thread_id := thread_id
           thread_name := thread_name.take 100
           is_active := true
           sub_patch_messages := [] }] }

/-- The `ThreadService.update_sub_patch_messages`: store the sub-patch message
map on the thread row. -/
def update_sub_patch_messages (db : DBState) (thread_id : Str)
    (m : List (Int × Str)) : DBState :=
  { db with patchThreads := db.patchThreads.map (fun t =>
      if t.thread_id = thread_id then { t with sub_patch_messages := m } else t) }

/-- Thread-creation tail of `_auto_watch_patch_card`
(`service/feed_message_service.py`, lines 727-765): prepare overview data,
ask the thread sender for a thread, store the thread row and sub-patch map,
and mark the card as threaded. -/
def auto_watch_create_thread (env : Env) (db : DBState)
    (patch_card : PatchCardData) : DBState :=
  if !env.prepare_overview_ok then db
  else
    let thread_name := patch_card.subject.take 100
    let (thread_id, sub_patch_messages) := env.create_thread_result
    if thread_id.isEmpty then db
    else
      let db1 :=
        thread_service_create db patch_card.message_id_header thread_id
          thread_name
      let db2 :=
        if !sub_patch_messages.isEmpty then
          update_sub_patch_messages db1 thread_id sub_patch_messages
        else db1
      { db2 with patchCards :=
          mark_as_has_thread db2.patchCards patch_card.message_id_header }

/-- The `FeedMessageService._auto_watch_patch_card`
(`service/feed_message_service.py`, lines 696-765). -/
def auto_watch_patch_card (env : Env) (db : DBState)
    (patch_card : PatchCardData) : DBState :=
  if !env.thread_sender_configured then db
  else if patch_card.platform_message_id.isEmpty then db
  else
    match find_thread_by_message_id_header db.patchThreads
        patch_card.message_id_header with
    | some existing_thread =>
      if existing_thread.is_active then
        if !patch_card.has_thread then
          { db with patchCards :=
              mark_as_has_thread db.patchCards patch_card.message_id_header }
        else db
      else auto_watch_create_thread env db patch_card
    | none => auto_watch_create_thread env db patch_card

/-- The `FeedMessageService._is_auto_watch_enabled`
(`service/feed_message_service.py`, lines 580-589). -/
def is_auto_watch_enabled (env : Env) (matched_filters : List Str) : Bool :=
  if matched_filters.isEmpty then false else env.auto_watch_flag

/-- Body of the `try` block of `_process_patch_message`
(`service/feed_message_service.py`, lines 124-205): sender check, series
sub-patch skip, filter evaluation, second existence check, creation and
auto watch. -/
def process_patch_message_body (env : Env) (db : DBState)
    (feed_message : FeedMessageData) (classification : Classification) :
    Except PyError (DBState × List PatchCardData) :=
  if !env.patch_card_sender_configured then Except.ok (db, [])
  else
    let patch_info := classification.patch_info
    let skip_sub_patch : Bool :=
      match patch_info with
      | some pi =>
        optStrTruthy classification.series_message_id &&
          !(pi.is_cover_letter || feed_message.is_cover_letter ||
            decide (pi.index = some 0))
      | none => false
    if skip_sub_patch then Except.ok (db, [])
    else
      let service_feed_message :=
        convert_to_service_feed_message feed_message patch_info
          classification.series_message_id
      match env.filter_outcome with
      | Except.error e => Except.error e
      | Except.ok (should_create, matched_filters) =>
        if !should_create then Except.ok (db, [])
        else
          let service_feed_message :=
            if !matched_filters.isEmpty then
              { service_feed_message with matched_filters := matched_filters }
            else service_feed_message
          let existing :=
            get_patch_card_with_series_data db feed_message.message_id_header
          let auto_watch_enabled := is_auto_watch_enabled env matched_filters
          match existing with
          | some patch_card =>
            let db1 :=
              if auto_watch_enabled && !patch_card.has_thread then
                auto_watch_patch_card env db patch_card
              else db
            Except.ok (db1, [])
          | none =>
            match create_and_send_patch_card env db feed_message
                service_feed_message patch_info
                classification.series_message_id with
            | Except.error e => Except.error e
            | Except.ok (none, db1, sent) => Except.ok (db1, sent)
            | Except.ok (some patch_card, db1, sent) =>
              let db2 :=
                if auto_watch_enabled && !patch_card.has_thread then
                  auto_watch_patch_card env db1 patch_card
                else db1
              Except.ok (db2, sent)

/-- The `FeedMessageService._process_patch_message`
(`service/feed_message_service.py`, lines 89-211): empty-header guard,
existing-card guard, then the `try` body whose `RuntimeError`,
`ValueError` and `AttributeError` exceptions are logged and swallowed. -/
def process_patch_message (env : Env) (db : DBState)
    (feed_message : FeedMessageData) (classification : Classification) :
    Except PyError (DBState × List PatchCardData) :=
  if feed_message.message_id_header.isEmpty then Except.ok (db, [])
  else if (find_card_by_message_id_header db.patchCards
      feed_message.message_id_header).isSome then Except.ok (db, [])
  else
    match process_patch_message_body env db feed_message classification with
    | Except.ok r => Except.ok r
    | Except.error e =>
      if caughtByServiceHandlers e then Except.ok (db, []) else Except.error e

/-- The `ReplyMapEntry` (`service/types.py`): a reply and the headers of its
child replies. -/
structure ReplyMapEntry where
  reply : FeedMessageData
  children : List Str
deriving DecidableEq

/-- The `ReplyHierarchy` (`service/types.py`): the derived reply tree.  The
Python `reply_map` dict is modelled as an insertion-ordered association
list. -/
structure ReplyHierarchy where
  reply_map : List (Str × ReplyMapEntry)
  root_replies : List Str
deriving DecidableEq

/-- Python dict assignment `m[k] = v`: overwrite in place, else append. -/
def dict_insert (m : List (Str × ReplyMapEntry)) (k : Str)
    (v : ReplyMapEntry) : List (Str × ReplyMapEntry) :=
  if m.any (fun kv => decide (kv.1 = k)) then
    m.map (fun kv => if kv.1 = k then (k, v) else kv)
  else m ++ [(k, v)]

/-- The `reply_map[parent_id].children.append(cid)`. -/
def append_child (m : List (Str × ReplyMapEntry)) (parent_id cid : Str) :
    List (Str × ReplyMapEntry) :=
  m.map (fun kv =>
    if kv.1 = parent_id then
      (kv.1, { kv.2 with children := kv.2.children ++ [cid] })
    else kv)

/-- Python dict key membership `k in m`. -/
def reply_map_mem (m : List (Str × ReplyMapEntry)) (k : Str) : Bool :=
  m.any (fun kv => decide (kv.1 = k))

/-- Python dict lookup `m[k]`. -/
def lookup_entry (m : List (Str × ReplyMapEntry)) (k : Str) :
    Option ReplyMapEntry :=
  (m.find? (fun kv => decide (kv.1 = k))).map (·.2)

/-- The `parse_reply_time` (`service/thread_service.py`, lines 34-55): the
timezone normalisation keeps the instant, so on the integer-timestamp model
it is the stored `received_at`. -/
def parse_reply_time (reply : FeedMessageData) : Option Nat :=
  reply.received_at

/-- The `_find_parent_reply_in_list` (`service/thread_service.py`, lines
86-140): walk the in-reply-to chain (depth capped at 5) until an id in the
reply map is found, with exact, fuzzy-substring, and recursive matching. -/
def find_parent_reply_in_list (db : List FeedMessageData) :
    Nat → Option Str → List (Str × ReplyMapEntry) → Str → Option Str
  | 0, _, _, _ => none
  | max_depth + 1, in_reply_to, reply_map, patch_message_id =>
    if !optStrTruthy in_reply_to then none
    else
      match extract_message_id_from_header in_reply_to with
      | none => none
      | some extracted_id =>
        if extracted_id = patch_message_id ∨
            strContains extracted_id patch_message_id then none
        else if reply_map_mem reply_map extracted_id then some extracted_id
        else
          match (reply_map.map (·.1)).find? (fun reply_id =>
              strContains reply_id extracted_id ||
              strContains extracted_id reply_id) with
          | some reply_id => some reply_id
          | none =>
            match find_by_message_id_header db extracted_id with
            | some feed_msg =>
              if optStrTruthy feed_msg.in_reply_to_header then
                find_parent_reply_in_list db max_depth
                  feed_msg.in_reply_to_header reply_map patch_message_id
              else none
            | none => none

/-- One iteration of the hierarchy loop of `build_reply_hierarchy_internal`
(`service/thread_service.py`, lines 166-196): place one reply either into
`root_replies` or into the children of its resolved parent. -/
def place_reply (db : List FeedMessageData) (patch_message_id : Str)
    (acc : List (Str × ReplyMapEntry) × List Str) (reply : FeedMessageData) :
    List (Str × ReplyMapEntry) × List Str :=
  let (reply_map, root_replies) := acc
  if !optStrTruthy reply.in_reply_to_header then
    (reply_map, root_replies ++ [reply.message_id_header])
  else
    match extract_message_id_from_header reply.in_reply_to_header with
    | none => (reply_map, root_replies ++ [reply.message_id_header])
    | some in_reply_to =>
      if in_reply_to = patch_message_id ∨
          strContains in_reply_to patch_message_id then
        (reply_map, root_replies ++ [reply.message_id_header])
      else
        match find_parent_reply_in_list db 5 reply.in_reply_to_header
            reply_map patch_message_id with
        | some parent_id =>
          (append_child reply_map parent_id reply.message_id_header,
           root_replies)
        | none => (reply_map, root_replies ++ [reply.message_id_header])

/-- Sort key used for both root and children ordering (lines 199-207):
`parse_reply_time(reply_map[rid].reply) or datetime.min`. -/
def reply_time_key (reply_map : List (Str × ReplyMapEntry)) (rid : Str) :
    Nat :=
  ((lookup_entry reply_map rid).bind (fun e => parse_reply_time e.reply)).getD 0

/-- The `build_reply_hierarchy_internal` (`service/thread_service.py`, lines
143-209). -/
def build_reply_hierarchy_internal (db : List FeedMessageData)
    (patch_replies : List FeedMessageData) (patch_message_id : Str) :
    ReplyHierarchy :=
  let reply_map0 := patch_replies.foldl
    (fun m reply =>
      dict_insert m reply.message_id_header { reply := reply, children := [] })
    []
  let (reply_map1, root_replies1) :=
    patch_replies.foldl (place_reply db patch_message_id) (reply_map0, [])
  let root_replies2 := List.insertionSort (fun a b =>
    reply_time_key reply_map1 a ≤ reply_time_key reply_map1 b) root_replies1
  let reply_map2 := reply_map1.map (fun kv =>
    (kv.1, { kv.2 with children :=
        (List.insertionSort (fun a b =>
          reply_time_key reply_map1 a ≤ reply_time_key reply_map1 b)
          kv.2.children) }))
  { reply_map := reply_map2, root_replies := root_replies2 }

/-! ### Theorems -/

/-- Claim C3: the filter decision table of `should_create_patch_card`.
With `filters` the enabled rules: no enabled rule gives allow with an empty
matched list; if at least one enabled rule matches, the result is allow
with the names of all matching rules, exclusive ones included; if exclusive
rules exist but only non-exclusive rules match, the matched list is exactly
the non-exclusive matches; and the message is rejected exactly when an
enabled exclusive rule exists and no enabled rule matches. -/
theorem filter_decision_table
    (matches_filter : ServiceFeedMessage → PatchCardFilterData → Bool)
    (rules : List PatchCardFilterData) (msg : ServiceFeedMessage) :
    (rules.filter (·.enabled) = [] →
      should_create_patch_card matches_filter rules msg = (true, [])) ∧
    ((∃ f ∈ rules.filter (·.enabled), matches_filter msg f = true) →
      should_create_patch_card matches_filter rules msg =
        (true, ((rules.filter (·.enabled)).filter
          (fun f => matches_filter msg f)).map (·.name))) ∧
    ((∃ f ∈ rules.filter (·.enabled), f.exclusive = true) →
      (∃ f ∈ rules.filter (·.enabled), matches_filter msg f = true) →
      (∀ f ∈ rules.filter (·.enabled),
        matches_filter msg f = true → f.exclusive = false) →
      should_create_patch_card matches_filter rules msg =
        (true, ((rules.filter (·.enabled)).filter
          (fun f => matches_filter msg f && !f.exclusive)).map (·.name))) ∧
    ((should_create_patch_card matches_filter rules msg).1 = false ↔
      (∃ f ∈ rules.filter (·.enabled), f.exclusive = true) ∧
      ∀ f ∈ rules.filter (·.enabled), matches_filter msg f = false) := by
  simp only [should_create_patch_card]
  generalize rules.filter (·.enabled) = fs
  have isEmpty_false_of_mem :
      ∀ {α : Type} {a : α} {l : List α}, a ∈ l → l.isEmpty = false := by
    intro α a l h
    cases l with
    | nil => exact absurd h (List.not_mem_nil a)
    | cons b t => rfl
  have allow_all : ∀ gs : List PatchCardFilterData,
      (∃ f ∈ gs, matches_filter msg f = true) →
      (if gs.isEmpty = true then (true, ([] : List Str))
       else
        if (gs.any fun f => matches_filter msg f && f.exclusive) = true then
          (true, (gs.filter (fun f => matches_filter msg f)).map (·.name))
        else
          if (!((gs.filter (fun f => matches_filter msg f)).map
              (·.name)).isEmpty) = true then
            (true, (gs.filter (fun f => matches_filter msg f)).map (·.name))
          else
            if (gs.any (·.exclusive)) = true then (false, [])
            else (true, [])) =
        (true, (gs.filter (fun f => matches_filter msg f)).map (·.name)) := by
    rintro gs ⟨f, hf, hmf⟩
    have hne : gs.isEmpty = false := isEmpty_false_of_mem hf
    have hmem : f.name ∈ (gs.filter (fun f => matches_filter msg f)).map
        (·.name) :=
      List.mem_map.mpr ⟨f, List.mem_filter.mpr ⟨hf, hmf⟩, rfl⟩
    have hm : ((gs.filter (fun f => matches_filter msg f)).map
        (·.name)).isEmpty = false := isEmpty_false_of_mem hmem
    rw [if_neg (by rw [hne]; exact Bool.false_ne_true)]
    by_cases hex : (gs.any fun f => matches_filter msg f && f.exclusive) = true
    · rw [if_pos hex]
    · rw [if_neg hex, if_pos (by rw [hm]; rfl)]
  refine ⟨?_, allow_all fs, ?_, ?_⟩
  · intro h
    subst h
    rfl
  · intro hexrule hmatch hnonexcl
    have key : (fs.filter (fun f => matches_filter msg f && !f.exclusive)) =
        (fs.filter (fun f => matches_filter msg f)) := by
      apply List.filter_congr
      intro f hf
      by_cases hmf : matches_filter msg f = true
      · rw [hmf, hnonexcl f hf hmf]
        rfl
      · rw [Bool.not_eq_true] at hmf
        rw [hmf]
        rfl
    rw [key]
    exact allow_all fs hmatch
  · constructor
    · intro hfalse
      by_cases hemp : fs.isEmpty = true
      · rw [if_pos hemp] at hfalse
        exact absurd hfalse (by decide)
      · rw [if_neg hemp] at hfalse
        by_cases hex :
            (fs.any fun f => matches_filter msg f && f.exclusive) = true
        · rw [if_pos hex] at hfalse
          simp at hfalse
        · rw [if_neg hex] at hfalse
          by_cases hmm : ((fs.filter (fun f => matches_filter msg f)).map
              (·.name)).isEmpty = true
          · rw [if_neg (by rw [hmm]; decide)] at hfalse
            by_cases hanyex : (fs.any (·.exclusive)) = true
            · have hnomatch : ∀ f ∈ fs, matches_filter msg f = false := by
                intro f hf
                by_contra hc
                rw [Bool.not_eq_false] at hc
                have hmem : f.name ∈ (fs.filter
                    (fun f => matches_filter msg f)).map (·.name) :=
                  List.mem_map.mpr ⟨f, List.mem_filter.mpr ⟨hf, hc⟩, rfl⟩
                rw [List.isEmpty_iff] at hmm
                rw [hmm] at hmem
                exact absurd hmem (List.not_mem_nil _)
              rcases List.any_eq_true.mp hanyex with ⟨f, hf, hfex⟩
              exact ⟨⟨f, hf, hfex⟩, hnomatch⟩
            · rw [if_neg hanyex] at hfalse
              exact absurd hfalse (by decide)
          · rw [if_pos (by rw [Bool.not_eq_true] at hmm; rw [hmm]; rfl)]
              at hfalse
            simp at hfalse
    · rintro ⟨⟨f, hf, hfex⟩, hnomatch⟩
      have hne : fs.isEmpty = false := isEmpty_false_of_mem hf
      have hfil : fs.filter (fun f => matches_filter msg f) = [] := by
        rw [List.filter_eq_nil_iff]
        intro g hg
        rw [hnomatch g hg]
        exact Bool.false_ne_true
      have hex : (fs.any fun f => matches_filter msg f && f.exclusive)
          = false := by
        rw [List.any_eq_false]
        intro g hg
        rw [hnomatch g hg]
        exact Bool.false_ne_true
      have hanyex : (fs.any (·.exclusive)) = true :=
        List.any_eq_true.mpr ⟨f, hf, hfex⟩
      rw [if_neg (by rw [hne]; exact Bool.false_ne_true),
        if_neg (by rw [hex]; exact Bool.false_ne_true),
        if_neg (by rw [hfil]; decide), if_pos hanyex]

/-- Witness for C3: two enabled rules, one exclusive matching and one
non-exclusive not matching; the decision-table theorem applies with a
concrete match predicate. -/
theorem filter_decision_table_witness :
    should_create_patch_card
      (fun _ f => f.exclusive)
      [{ name := ('x' :: []), enabled := true, exclusive := true },
       { name := ('y' :: []), enabled := true, exclusive := false }]
      { subsystem_name := [], message_id_header := ('m' :: []), subject := [],
        author := [], author_email := [], message_id := none,
        in_reply_to_header := none, content := none, url := none,
        received_at := none, is_patch := true, is_reply := false,
        is_series_patch := false, patch_version := none, patch_index := none,
        patch_total := none, is_cover_letter := false,
        series_message_id := none } =
      (true, [('x' :: [])]) := by
  have h := (filter_decision_table (fun _ f => f.exclusive)
    [{ name := ('x' :: []), enabled := true, exclusive := true },
     { name := ('y' :: []), enabled := true, exclusive := false }]
    { subsystem_name := [], message_id_header := ('m' :: []), subject := [],
      author := [], author_email := [], message_id := none,
      in_reply_to_header := none, content := none, url := none,
      received_at := none, is_patch := true, is_reply := false,
      is_series_patch := false, patch_version := none, patch_index := none,
      patch_total := none, is_cover_letter := false,
      series_message_id := none }).2.1
  rw [h (by decide)]
  decide

/-- Claim C9: `FeedMessageService._should_create_patch_card` constructs
`PatchCardFilterService` with four positional arguments while its
`__init__` accepts only `filter_repo`; the resulting `TypeError` is not in
the caught class tuple, so the call always raises instead of returning the
default-allow result `(True, [])`. -/
theorem should_create_patch_card_outer_raises
    (matches_filter : ServiceFeedMessage → PatchCardFilterData → Bool)
    (rules : List PatchCardFilterData) (msg : ServiceFeedMessage) :
    should_create_patch_card_outer matches_filter rules msg =
      Except.error PyError.typeError ∧
    (Except.error PyError.typeError :
      Except PyError (Bool × List Str)) ≠ Except.ok (true, []) := by
  constructor
  · rfl
  · intro h
    cases h

/-- The `pyStrip` leaves a string alone when both ends are non-whitespace. -/
theorem pyStrip_of_nonws_ends (a b : Char) (l : Str)
    (ha : a.isWhitespace = false) (hb : b.isWhitespace = false) :
    pyStrip (a :: (l ++ [b])) = a :: (l ++ [b]) := by
  unfold pyStrip
  rw [List.dropWhile_cons, ha]
  simp only [Bool.false_eq_true, if_false]
  rw [List.reverse_cons, List.reverse_append, List.reverse_cons]
  simp only [List.reverse_nil, List.nil_append, List.cons_append]
  rw [List.dropWhile_cons, hb]
  simp only [Bool.false_eq_true, if_false]
  simp [List.reverse_append]

/-- The `pySplitAux` closes the current token at the first space when the token
seen so far has no whitespace. -/
theorem pySplitAux_append_space (xs : Str) :
    ∀ (acc ys : Str), (∀ c ∈ xs, c.isWhitespace = false) →
    (acc ≠ [] ∨ xs ≠ []) →
    pySplitAux (xs ++ ' ' :: ys) acc =
      (acc.reverse ++ xs) :: pySplitAux ys [] := by
  induction xs with
  | nil =>
    intro acc ys _ hne
    have hacc : acc ≠ [] := by
      rcases hne with h | h
      · exact h
      · exact absurd rfl h
    have hae : acc.isEmpty = false := by
      cases acc with
      | nil => exact absurd rfl hacc
      | cons c t => rfl
    simp only [List.nil_append, pySplitAux]
    rw [if_pos (by decide), hae]
    simp
  | cons c t ih =>
    intro acc ys hws _
    have hc : c.isWhitespace = false := hws c (List.mem_cons_self c t)
    simp only [List.cons_append, pySplitAux, List.append_eq]
    rw [hc]
    simp only [Bool.false_eq_true, if_false]
    rw [ih (c :: acc) ys (fun d hd => hws d (List.mem_cons_of_mem c hd))
      (Or.inl (by simp))]
    simp

/-- Claim C4, counterexample: on the two-reference header `"<a> <b>"` the
extraction returns `"a>"`, keeping the closing angle bracket of the first
reference, not the bracket-free id `"a"` the claim states. -/
theorem extract_first_reference_counterexample :
    extract_message_id_from_header (some ("<a> <b>".toList)) =
      some ("a>".toList) ∧
    ("a>".toList : Str) ≠ ("a".toList : Str) := by
  constructor
  · decide
  · decide

/-- Claim C4 as amended: for a header of the form `"<A> <B>"` (first id
`A` nonempty and whitespace-free), the extraction used by reply resolution
returns the first whitespace-separated token of the bracket-trimmed
header, which is `A` with its closing angle bracket still attached
(`A ++ ">"`), independently of `B` — so resolution uses only that first
token and ignores `B`. -/
theorem extract_first_reference_amended (A B : Str) (hA : A ≠ [])
    (hAw : ∀ c ∈ A, c.isWhitespace = false) :
    extract_message_id_from_header
      (some ('<' :: (A ++ ('>' :: ' ' :: '<' :: (B ++ ['>']))))) =
      some (A ++ ['>']) := by
  have hshape : A ++ ('>' :: ' ' :: '<' :: (B ++ ['>'])) =
      (A ++ ('>' :: ' ' :: '<' :: B)) ++ ['>'] := by
    simp [List.append_assoc]
  have hstrip : pyStrip ('<' :: (A ++ ('>' :: ' ' :: '<' :: (B ++ ['>'])))) =
      '<' :: (A ++ ('>' :: ' ' :: '<' :: (B ++ ['>']))) := by
    rw [hshape]
    exact pyStrip_of_nonws_ends '<' '>' _ rfl rfl
  simp only [extract_message_id_from_header]
  rw [if_neg (by simp)]
  rw [hstrip]
  rw [if_pos ?side]
  case side =>
    constructor
    · rfl
    · rw [hshape, ← List.cons_append, List.getLast?_concat]
  rw [List.drop_succ_cons, List.drop_zero, hshape, List.dropLast_concat]
  have hsplit : pySplit (A ++ ('>' :: ' ' :: '<' :: B)) =
      (A ++ ['>']) :: pySplitAux ('<' :: B) [] := by
    unfold pySplit
    have hshape2 : A ++ ('>' :: ' ' :: '<' :: B) =
        (A ++ ['>']) ++ (' ' :: '<' :: B) := by
      simp [List.append_assoc]
    rw [hshape2]
    rw [pySplitAux_append_space (A ++ ['>']) [] ('<' :: B) ?hws ?hne]
    · simp
    case hws =>
      intro c hc
      rcases List.mem_append.mp hc with h | h
      · exact hAw c h
      · rw [List.mem_singleton] at h
        subst h
        rfl
    case hne =>
      right
      simp
  rw [hsplit]
  obtain ⟨a, A2, rfl⟩ : ∃ a A2, A = a :: A2 := by
    cases A with
    | nil => exact absurd rfl hA
    | cons a t => exact ⟨a, t, rfl⟩
  simp only [List.cons_append]
  rw [pyStrip_of_nonws_ends a '>' A2 (hAw a (List.mem_cons_self a A2)) rfl]

/-- Witness for the amended C4: instantiated at `A = "a"`, `B = "b"`. -/
theorem extract_first_reference_amended_witness :
    extract_message_id_from_header
      (some ('<' :: ("a".toList ++ ('>' :: ' ' :: '<' ::
        ("b".toList ++ ['>']))))) =
      some ("a".toList ++ ['>']) :=
  extract_first_reference_amended ("a".toList) ("b".toList) (by decide)
    (by decide)

/-- Any value returned by the chain walk satisfies
`is_patch && not is_reply`: the walk returns either the resolved patch or a
cover letter that is itself a patch and not a reply. -/
theorem find_patch_in_chain_aux_is_patch (db : List FeedMessageData) :
    ∀ (fuel : Nat) (visited : List Str) (raw : Option Str)
      (r : FeedMessageData),
    find_patch_in_chain_aux db fuel visited raw = some r →
    r.is_patch = true ∧ r.is_reply = false := by
  intro fuel
  induction fuel with
  | zero =>
    intro visited raw r h
    simp [find_patch_in_chain_aux] at h
  | succ n ih =>
    intro visited raw r h
    cases raw with
    | none => simp [find_patch_in_chain_aux] at h
    | some rr =>
      unfold find_patch_in_chain_aux at h
      split at h
      · cases h
      · split at h
        · cases h
        · split at h
          · cases h
          · split at h
            · cases h
            · rename_i msg hfind
              split at h
              · rename_i h3
                rw [Bool.and_eq_true, Bool.not_eq_true'] at h3
                split at h
                · split at h
                  · cases h
                    exact ⟨h3.1, h3.2⟩
                  · split at h
                    · rename_i cover hcov
                      split at h
                      · rename_i h5
                        cases h
                        rw [Bool.and_eq_true, Bool.not_eq_true'] at h5
                        exact ⟨h5.1, h5.2⟩
                      · cases h
                        exact ⟨h3.1, h3.2⟩
                    · cases h
                      exact ⟨h3.1, h3.2⟩
                · cases h
                  exact ⟨h3.1, h3.2⟩
              · exact ih _ _ r h

/-- Identifier of the synthetic chain reply number `i`. -/
def chain_id (i : Nat) : Str := 'm' :: Nat.toDigits 10 i

/-- Synthetic chain reply `i`: replies to reply `i + 1`, and reply 40
replies to the patch `p0`. -/
def chain_reply (i : Nat) : FeedMessageData :=
  { message_id_header := chain_id i
    in_reply_to_header :=
      some ('<' :: ((if i = 40 then ('p' :: ['0']) else chain_id (i + 1))
        ++ ['>']))
    is_reply := true }

/-- The patch terminating the synthetic chain. -/
def chain_patch : FeedMessageData :=
  { message_id_header := ('p' :: ['0']), is_patch := true }

/-- A store holding a chain of 40 replies followed by one patch. -/
def chain_db : List FeedMessageData :=
  ((List.range 40).map (fun i => chain_reply (i + 1))) ++ [chain_patch]

/-- A store holding two replies referencing each other (a reference
cycle). -/
def cycle_db : List FeedMessageData :=
  [{ message_id_header := ('c' :: ['1']),
     in_reply_to_header := some ("<c2>".toList), is_reply := true },
   { message_id_header := ('c' :: ['2']),
     in_reply_to_header := some ("<c1>".toList), is_reply := true }]

/-- Claim C5: the reply-chain walk is depth-bounded and cycle-safe.  On the
synthetic 40-reply chain the walk with the source bound of 30 returns
`none` even though the same walk with a larger bound reaches the patch; on
a cyclic reference graph it returns `none` through the visited check; and
on every store the walk is a total function whose only successful results
are patches, so exceeding the bound yields "no target found" rather than
an error or divergence. -/
theorem find_patch_in_chain_depth_bound :
    find_patch_in_chain chain_db ('<' :: (chain_id 1 ++ ['>'])) = none ∧
    (find_patch_in_chain_aux chain_db 50 []
        (some ('<' :: (chain_id 1 ++ ['>']))) = some chain_patch ∧
      chain_patch.is_patch = true ∧ chain_patch.is_reply = false) ∧
    find_patch_in_chain cycle_db ("<c1>".toList) = none ∧
    (∀ (db : List FeedMessageData) (raw : Str) (r : FeedMessageData),
      find_patch_in_chain db raw = some r →
      r.is_patch = true ∧ r.is_reply = false) := by
  refine ⟨by decide, ⟨by decide, by decide, by decide⟩, by decide, ?_⟩
  intro db raw r h
  exact find_patch_in_chain_aux_is_patch db 30 [] (some raw) r h

/-- Witness for C5: the universally quantified conjunct applied to a
one-element store where the walk succeeds immediately. -/
theorem find_patch_in_chain_depth_bound_witness :
    chain_patch.is_patch = true ∧ chain_patch.is_reply = false :=
  find_patch_in_chain_depth_bound.2.2.2 [chain_patch] ("<p0>".toList)
    chain_patch (by decide)

/-- Claim C6: when the chain walk reaches an ancestor that is a patch and
not a reply, and that ancestor is a non-cover-letter sub-patch of a series
(`is_series_patch`, not `is_cover_letter`, nonempty `series_message_id`),
the walk returns the series cover letter stored under the
`series_message_id` instead of the sub-patch itself. -/
theorem find_patch_in_chain_cover_redirect (db : List FeedMessageData)
    (fuel : Nat) (visited : List Str) (raw cid sid : Str)
    (msg cover : FeedMessageData)
    (hre : raw.isEmpty = false)
    (hext : extract_message_id_from_header (some raw) = some cid)
    (hvis : cid ∉ visited)
    (hfind : find_by_message_id_header db cid = some msg)
    (hp : msg.is_patch = true) (hr : msg.is_reply = false)
    (hsp : msg.is_series_patch = true) (hcl : msg.is_cover_letter = false)
    (hsid : msg.series_message_id = some sid) (hse : sid.isEmpty = false)
    (hcov : find_by_message_id_header db sid = some cover)
    (hcp : cover.is_patch = true) (hcr : cover.is_reply = false) :
    find_patch_in_chain_aux db (fuel + 1) visited (some raw) = some cover := by
  unfold find_patch_in_chain_aux
  rw [if_neg (by rw [hre]; exact Bool.false_ne_true)]
  simp only [hext]
  rw [if_neg hvis]
  simp only [hfind]
  rw [if_pos (by rw [hp, hr]; rfl)]
  rw [if_pos (by rw [hsp, hcl, hsid]; simp [optStrTruthy, hse])]
  simp only [hsid, hcov]
  rw [if_pos (by rw [hcp, hcr]; rfl)]

/-- A store for the C6 witness: a reply, a sub-patch 1/2, and the cover
letter of the series. -/
def redirect_db : List FeedMessageData :=
  [{ message_id_header := ("s1".toList),
     is_patch := true, is_series_patch := true, is_cover_letter := false,
     patch_index := some 1, patch_total := some 2,
     series_message_id := some ("cv".toList) },
   { message_id_header := ("cv".toList),
     is_patch := true, is_series_patch := true, is_cover_letter := true,
     patch_index := some 0, patch_total := some 2,
     series_message_id := some ("cv".toList) }]

/-- Witness for C6: a reply referencing the sub-patch `s1` resolves to the
cover letter `cv`. -/
theorem find_patch_in_chain_cover_redirect_witness :
    find_patch_in_chain_aux redirect_db 30 [] (some ("<s1>".toList)) =
      some { message_id_header := ("cv".toList),
             is_patch := true, is_series_patch := true,
             is_cover_letter := true,
             patch_index := some 0, patch_total := some 2,
             series_message_id := some ("cv".toList) } := by
  have h := find_patch_in_chain_cover_redirect redirect_db 29 []
    ("<s1>".toList) ("s1".toList) ("cv".toList)
    { message_id_header := ("s1".toList),
      is_patch := true, is_series_patch := true, is_cover_letter := false,
      patch_index := some 1, patch_total := some 2,
      series_message_id := some ("cv".toList) }
    { message_id_header := ("cv".toList),
      is_patch := true, is_series_patch := true, is_cover_letter := true,
      patch_index := some 0, patch_total := some 2,
      series_message_id := some ("cv".toList) }
    (by decide) (by decide) (by decide) (by decide) (by decide) (by decide)
    (by decide) (by decide) (by decide) (by decide) (by decide) (by decide)
    (by decide)
  exact h

/-- The `create_or_update` always leaves a row with the header of the stored
message in the feed-message table. -/
theorem mem_headers_create_or_update (store : List FeedMessageData)
    (data : FeedMessageData) :
    data.message_id_header ∈
      (create_or_update store data).map (·.message_id_header) := by
  unfold create_or_update
  by_cases h : store.any
      (fun r => decide (r.message_id_header = data.message_id_header)) = true
  · rw [if_pos h]
    rcases List.any_eq_true.mp h with ⟨r, hr, hrd⟩
    rw [decide_eq_true_eq] at hrd
    refine List.mem_map.mpr ?_
    refine ⟨(if r.message_id_header = data.message_id_header then
      { data with received_at := match data.received_at with
          | some t => some t
          | none => r.received_at }
      else r), List.mem_map_of_mem _ hr, ?_⟩
    rw [if_pos hrd]
  · rw [if_neg h]
    simp

/-- The `try` body of `_process_patch_message` returns without any effect
on a series sub-patch (nonempty series id, patch info present, not a cover
letter in either record, index at least 1). -/
theorem process_patch_message_body_skip (env : Env) (d : DBState)
    (msg : FeedMessageData) (cls : Classification) (sid : Str)
    (pinfo : PatchInfo) (i : Int)
    (hsid : cls.series_message_id = some sid) (hse : sid ≠ [])
    (hpi : cls.patch_info = some pinfo)
    (hplc : pinfo.is_cover_letter = false) (hmlc : msg.is_cover_letter = false)
    (hidx : pinfo.index = some i) (hge : 1 ≤ i) :
    process_patch_message_body env d msg cls = Except.ok (d, []) := by
  unfold process_patch_message_body
  by_cases hs : env.patch_card_sender_configured = true
  · rw [if_neg (by rw [hs]; decide)]
    have hine : i ≠ 0 := by omega
    have hemp : sid.isEmpty = false := by
      cases sid with
      | nil => exact absurd rfl hse
      | cons c t => rfl
    simp only [hpi, hsid, hplc, hmlc, hidx, optStrTruthy]
    rw [if_pos (by simp [hemp, Option.some.injEq, hine])]
  · rw [if_pos (by simp [Bool.not_eq_true] at hs; rw [hs]; rfl)]

/-- Claim C7: a patch message carrying a nonempty `series_message_id` that
is not a cover letter (neither the parsed patch info nor the stored row is
a cover letter, and the patch index is at least 1) is stored as a plain
FeedMessage row by `create_or_update`, and `_process_patch_message` then
returns leaving the whole store — in particular the card store — unchanged
and sending nothing, for every collaborator behaviour. -/
theorem series_sub_patch_isolation (env : Env) (db : DBState)
    (msg : FeedMessageData) (cls : Classification) (sid : Str)
    (pinfo : PatchInfo) (i : Int)
    (hsid : cls.series_message_id = some sid) (hse : sid ≠ [])
    (hpi : cls.patch_info = some pinfo)
    (hplc : pinfo.is_cover_letter = false) (hmlc : msg.is_cover_letter = false)
    (hidx : pinfo.index = some i) (hge : 1 ≤ i) :
    process_patch_message env
      { db with feedMessages := create_or_update db.feedMessages msg }
      msg cls =
      Except.ok
        ({ db with feedMessages := create_or_update db.feedMessages msg },
          []) ∧
    msg.message_id_header ∈
      (create_or_update db.feedMessages msg).map (·.message_id_header) := by
  refine ⟨?_, mem_headers_create_or_update db.feedMessages msg⟩
  unfold process_patch_message
  by_cases h1 : msg.message_id_header.isEmpty = true
  · rw [if_pos h1]
  · rw [if_neg h1]
    by_cases h2 : (find_card_by_message_id_header
        ({ db with feedMessages := create_or_update db.feedMessages msg }
          : DBState).patchCards
        msg.message_id_header).isSome = true
    · rw [if_pos h2]
    · rw [if_neg h2]
      rw [process_patch_message_body_skip env _ msg cls sid pinfo i hsid hse
        hpi hplc hmlc hidx hge]

/-- A collaborator environment in which every external call succeeds. -/
def happy_env : Env :=
  { patch_card_sender_configured := true
    send_patch_card := SendOutcome.ret (some ("pm1".toList)) ("ch".toList)
    filter_outcome := Except.ok (true, [])
    auto_watch_flag := true
    thread_sender_configured := true
    prepare_overview_ok := true
    create_thread_result := (("th".toList), []) }

/-- A concrete series sub-patch 1/2. -/
def sub_patch_msg : FeedMessageData :=
  { message_id_header := ("s1".toList)
    is_patch := true
    is_series_patch := true
    patch_index := some 1
    patch_total := some 2
    series_message_id := some ("cv".toList) }

/-- The classification of `sub_patch_msg`. -/
def sub_patch_cls : Classification :=
  { is_patch := true
    is_reply := false
    is_series_patch := true
    series_message_id := some ("cv".toList)
    patch_info :=
      some { is_patch := true, is_cover_letter := false, version := none,
             index := some 1, total := some 2 } }

/-- Witness for C7: the concrete sub-patch 1/2 processed against an empty
store with collaborators that would succeed. -/
theorem series_sub_patch_isolation_witness :
    process_patch_message happy_env
      { feedMessages := create_or_update [] sub_patch_msg,
        patchCards := [], patchThreads := [] }
      sub_patch_msg sub_patch_cls =
      Except.ok
        ({ feedMessages := create_or_update [] sub_patch_msg,
           patchCards := [], patchThreads := [] }, []) := by
  have h := series_sub_patch_isolation happy_env
    { feedMessages := [], patchCards := [], patchThreads := [] }
    sub_patch_msg sub_patch_cls ("cv".toList)
    { is_patch := true, is_cover_letter := false,
      version := none, index := some 1, total := some 2 }
    1 rfl (by decide) rfl rfl rfl rfl (by decide)
  exact h.1

/-- Characterisation of `_create_and_send_patch_card`: a normal return
either creates nothing and leaves the store untouched, or creates exactly
one card whose platform identity is the nonempty id returned by the
sender. -/
theorem create_and_send_patch_card_spec (env : Env) (db : DBState)
    (msg : FeedMessageData) (sfm : ServiceFeedMessage)
    (pinfo : Option PatchInfo) (sid : Option Str) :
    ∀ (r : Option PatchCardData) (db1 : DBState) (sent : List PatchCardData),
    create_and_send_patch_card env db msg sfm pinfo sid =
      Except.ok (r, db1, sent) →
    (r = none ∧ db1 = db) ∨
    (∃ (card : PatchCardData) (pmid : Str),
      r = some card ∧
      env.patch_card_sender_configured = true ∧
      (∃ pcid, env.send_patch_card = SendOutcome.ret (some pmid) pcid) ∧
      pmid ≠ [] ∧
      card.platform_message_id = pmid ∧
      card.message_id_header = sfm.message_id_header ∧
      db1.patchCards = db.patchCards ++ [card]) := by
  intro r db1 sent h
  simp only [create_and_send_patch_card] at h
  by_cases hc : env.patch_card_sender_configured = true
  · rw [if_pos hc] at h
    cases hsend : env.send_patch_card with
    | ret pmid pcid =>
      simp only [hsend] at h
      cases pmid with
      | none =>
        simp only [optStrTruthy] at h
        rw [if_pos (by decide)] at h
        cases h
        exact Or.inl ⟨rfl, rfl⟩
      | some p =>
        by_cases hp : p.isEmpty = true
        · simp only [optStrTruthy] at h
          rw [if_pos (by rw [hp]; decide)] at h
          cases h
          exact Or.inl ⟨rfl, rfl⟩
        · simp only [optStrTruthy] at h
          rw [if_neg (by rw [Bool.not_eq_true] at hp; rw [hp]; decide)] at h
          simp only [create_patch_card] at h
          cases h
          have hpne : p ≠ [] := by
            intro hpe
            subst hpe
            exact hp rfl
          exact Or.inr ⟨_, p, rfl, hc, ⟨pcid, rfl⟩, hpne, rfl, rfl, rfl⟩
    | raiseErr e =>
      simp only [hsend] at h
      by_cases hcaught : caughtByServiceHandlers e = true
      · rw [if_pos hcaught] at h
        simp only [optStrTruthy] at h
        rw [if_pos (by decide)] at h
        cases h
        exact Or.inl ⟨rfl, rfl⟩
      · rw [if_neg hcaught] at h
        cases h
  · rw [if_neg hc] at h
    simp only [optStrTruthy] at h
    rw [if_pos (by decide)] at h
    cases h
    exact Or.inl ⟨rfl, rfl⟩

/-- Claim C2: send-before-persist atomicity of card creation.  First
conjunct: whenever the sender is absent, raises, or returns no usable
platform message id (`None` or empty), a normal return of
`_create_and_send_patch_card` is `None` with the store unchanged (an
exception of an uncaught class propagates before the persist step, so it
cannot persist either).  Second conjunct: every card present in the
resulting store either pre-existed or carries, as its platform identity,
the nonempty id returned by the successful send — no persisted card
without a platform identity. -/
theorem send_before_persist_atomicity (env : Env) (db : DBState)
    (msg : FeedMessageData) (sfm : ServiceFeedMessage)
    (pinfo : Option PatchInfo) (sid : Option Str) :
    ((env.patch_card_sender_configured = false ∨
      (∃ pcid, env.send_patch_card = SendOutcome.ret none pcid) ∨
      (∃ pcid, env.send_patch_card = SendOutcome.ret (some []) pcid) ∨
      (∃ e, env.send_patch_card = SendOutcome.raiseErr e)) →
      ∀ (r : Option PatchCardData) (db1 : DBState)
        (sent : List PatchCardData),
      create_and_send_patch_card env db msg sfm pinfo sid =
        Except.ok (r, db1, sent) →
      r = none ∧ db1 = db) ∧
    (∀ (r : Option PatchCardData) (db1 : DBState) (sent : List PatchCardData)
      (card : PatchCardData),
      create_and_send_patch_card env db msg sfm pinfo sid =
        Except.ok (r, db1, sent) →
      card ∈ db1.patchCards →
      card ∈ db.patchCards ∨
        (card.platform_message_id ≠ [] ∧
          ∃ pcid, env.send_patch_card =
            SendOutcome.ret (some card.platform_message_id) pcid)) := by
  constructor
  · intro hfail r db1 sent h
    rcases create_and_send_patch_card_spec env db msg sfm pinfo sid r db1
        sent h with
      ⟨hr, hdb⟩ | ⟨card, pmid, _, hc, ⟨pcid, hsend⟩, hpne, _, _, _⟩
    · exact ⟨hr, hdb⟩
    · exfalso
      rcases hfail with hno | ⟨pcid2, hs2⟩ | ⟨pcid2, hs2⟩ | ⟨e, hs2⟩
      · rw [hc] at hno
        cases hno
      · rw [hsend] at hs2
        cases hs2
      · rw [hsend] at hs2
        injection hs2 with h1 _
        injection h1 with h2
        exact hpne h2
      · rw [hsend] at hs2
        cases hs2
  · intro r db1 sent card h hmem
    rcases create_and_send_patch_card_spec env db msg sfm pinfo sid r db1
        sent h with
      ⟨_, hdb⟩ | ⟨card0, pmid, _, _, ⟨pcid, hsend⟩, hpne, hpm, _, hdb⟩
    · subst hdb
      exact Or.inl hmem
    · rw [hdb] at hmem
      rcases List.mem_append.mp hmem with hold | hnew
      · exact Or.inl hold
      · rw [List.mem_singleton] at hnew
        subst hnew
        rw [hpm]
        exact Or.inr ⟨hpne, pcid, hsend⟩

/-- A concrete single (non-series) patch message. -/
def single_patch_msg : FeedMessageData :=
  { message_id_header := ("q1".toList), is_patch := true }

/-- Parsed patch info of `single_patch_msg`. -/
def single_patch_info : PatchInfo :=
  { is_patch := true, is_cover_letter := false, version := none,
    index := none, total := none }

/-- Service feed message of `single_patch_msg`. -/
def single_patch_sfm : ServiceFeedMessage :=
  convert_to_service_feed_message single_patch_msg (some single_patch_info)
    none

/-- The empty store. -/
def empty_db : DBState := { feedMessages := [], patchCards := [], patchThreads := [] }

/-- The card created for `single_patch_msg` by a successful send. -/
def single_created_card : PatchCardData :=
  (create_patch_card empty_db single_patch_sfm ("pm1".toList)
    ("ch".toList)).1

/-- Witness for C2: with the all-success environment, the one card created
into the empty store carries the platform id returned by the sender. -/
theorem send_before_persist_atomicity_witness :
    single_created_card ∈ empty_db.patchCards ∨
    (single_created_card.platform_message_id ≠ [] ∧
      ∃ pcid, happy_env.send_patch_card =
        SendOutcome.ret (some single_created_card.platform_message_id)
          pcid) := by
  refine (send_before_persist_atomicity happy_env empty_db
    single_patch_msg single_patch_sfm (some single_patch_info) none).2
    (some single_created_card)
    (create_patch_card empty_db single_patch_sfm ("pm1".toList)
      ("ch".toList)).2
    [build_temp_patch_card single_patch_msg single_patch_sfm none
      (some single_patch_info) []]
    single_created_card
    (by rfl) (by decide)

/-- The dedup keys of the card store. -/
def card_headers (cards : List PatchCardData) : List Str :=
  cards.map (·.message_id_header)

/-- The PatchCard store invariant: at most one card per
`message_id_header`. -/
def AtMostOnePerHeader (cards : List PatchCardData) : Prop :=
  (card_headers cards).Nodup

/-- Marking a card as threaded never changes the dedup keys. -/
theorem card_headers_mark_as_has_thread (cards : List PatchCardData)
    (h : Str) :
    card_headers (mark_as_has_thread cards h) = card_headers cards := by
  unfold card_headers mark_as_has_thread
  rw [List.map_map]
  apply List.map_congr_left
  intro c _
  by_cases hc : c.message_id_header = h
  · simp [hc]
  · simp [hc]

/-- The `ThreadService.create` writes only the thread table. -/
theorem thread_service_create_patchCards (db : DBState)
    (h tid tname : Str) :
    (thread_service_create db h tid tname).patchCards = db.patchCards := by
  unfold thread_service_create
  split
  · rfl
  · rfl

/-- The `update_sub_patch_messages` writes only the thread table. -/
theorem update_sub_patch_messages_patchCards (db : DBState) (tid : Str)
    (m : List (Int × Str)) :
    (update_sub_patch_messages db tid m).patchCards = db.patchCards := rfl

/-- The thread-creation tail of auto watch keeps the card keys. -/
theorem auto_watch_create_thread_headers (env : Env) (db : DBState)
    (card : PatchCardData) :
    card_headers (auto_watch_create_thread env db card).patchCards =
      card_headers db.patchCards := by
  unfold auto_watch_create_thread
  split
  · rfl
  · cases henv : env.create_thread_result with
    | mk tid sub =>
      simp only [henv]
      split
      · rfl
      · by_cases hsub : (!sub.isEmpty) = true
        · simp only [hsub, if_true, card_headers_mark_as_has_thread,
            update_sub_patch_messages_patchCards,
            thread_service_create_patchCards]
        · simp only [hsub, if_false, Bool.false_eq_true,
            card_headers_mark_as_has_thread,
            thread_service_create_patchCards]

/-- The `_auto_watch_patch_card` keeps the card dedup keys: it only flips
`has_thread` flags and writes thread rows. -/
theorem auto_watch_patch_card_headers (env : Env) (db : DBState)
    (card : PatchCardData) :
    card_headers (auto_watch_patch_card env db card).patchCards =
      card_headers db.patchCards := by
  unfold auto_watch_patch_card
  split
  · rfl
  · split
    · rfl
    · split
      · split
        · split
          · exact card_headers_mark_as_has_thread db.patchCards _
          · rfl
        · exact auto_watch_create_thread_headers env db card
      · exact auto_watch_create_thread_headers env db card

/-- A failed card lookup means the header is absent from the keys. -/
theorem not_mem_card_headers_of_find_none (cards : List PatchCardData)
    (h : Str)
    (hfind : find_card_by_message_id_header cards h = none) :
    h ∉ card_headers cards := by
  unfold find_card_by_message_id_header at hfind
  rw [List.find?_eq_none] at hfind
  intro hmem
  rcases List.mem_map.mp hmem with ⟨c, hc, hch⟩
  exact hfind c hc (by rw [decide_eq_true_eq]; exact hch)

/-- Appending a card with a fresh header preserves the invariant. -/
theorem at_most_one_append (cards : List PatchCardData)
    (card : PatchCardData) (hN : AtMostOnePerHeader cards)
    (hnot : card.message_id_header ∉ card_headers cards) :
    AtMostOnePerHeader (cards ++ [card]) := by
  unfold AtMostOnePerHeader card_headers at *
  rw [List.map_append, List.nodup_append]
  refine ⟨hN, by simp, ?_⟩
  intro x hx
  simp only [List.map_cons, List.map_nil, List.mem_singleton]
  intro hxa
  subst hxa
  exact hnot hx

/-- The `try` body of `_process_patch_message`, entered only when no card
with the message header exists, preserves the at-most-one-card-per-header
invariant: the only insertion appends a card keyed by the absent header. -/
theorem process_patch_message_body_preserves (env : Env) (db : DBState)
    (msg : FeedMessageData) (cls : Classification) :
    ∀ (db1 : DBState) (sent : List PatchCardData),
    process_patch_message_body env db msg cls = Except.ok (db1, sent) →
    find_card_by_message_id_header db.patchCards msg.message_id_header =
      none →
    AtMostOnePerHeader db.patchCards → AtMostOnePerHeader db1.patchCards := by
  intro db1 sent h hfind hN
  simp only [process_patch_message_body] at h
  split at h
  · cases h
    exact hN
  · split at h
    · cases h
      exact hN
    · split at h
      · cases h
      · split at h
        · cases h
          exact hN
        · split at h
          · rename_i card heq
            unfold get_patch_card_with_series_data at heq
            rw [hfind] at heq
            cases heq
          · split at h
            · cases h
            · rename_i hcs
              cases h
              rcases create_and_send_patch_card_spec env db msg _ _ _
                  _ _ _ hcs with ⟨_, hdb⟩ | ⟨c0, pmid, hr, _⟩
              · subst hdb
                exact hN
              · cases hr
            · rename_i patch_card db2 sent2 hcs
              cases h
              rcases create_and_send_patch_card_spec env db msg _ _ _
                  _ _ _ hcs with
                ⟨hr, _⟩ | ⟨c0, pmid, hr, _, _, hpne, hpm, hmh, hdb2⟩
              · cases hr
              · injection hr with hr0
                subst hr0
                have hmh2 : patch_card.message_id_header =
                    msg.message_id_header := by
                  rw [hmh]
                  split
                  · rfl
                  · rfl
                have hnot : patch_card.message_id_header ∉
                    card_headers db.patchCards := by
                  rw [hmh2]
                  exact not_mem_card_headers_of_find_none _ _ hfind
                unfold AtMostOnePerHeader
                split
                · rw [auto_watch_patch_card_headers, hdb2]
                  exact at_most_one_append db.patchCards patch_card hN hnot
                · rw [hdb2]
                  exact at_most_one_append db.patchCards patch_card hN hnot

/-- Claim C1: idempotence of patch processing.  First conjunct: when a
PatchCard with the message `message_id_header` already exists,
`_process_patch_message` returns immediately with the store unchanged and
nothing sent, so reprocessing the same FeedMessage payload never creates a
second card.  Second conjunct: every normal run preserves the invariant
that at most one PatchCard exists per `message_id_header`. -/
theorem process_patch_message_idempotent (env : Env) (db : DBState)
    (msg : FeedMessageData) (cls : Classification) :
    ((∃ c ∈ db.patchCards, c.message_id_header = msg.message_id_header) →
      process_patch_message env db msg cls = Except.ok (db, [])) ∧
    (∀ (db1 : DBState) (sent : List PatchCardData),
      process_patch_message env db msg cls = Except.ok (db1, sent) →
      AtMostOnePerHeader db.patchCards → AtMostOnePerHeader db1.patchCards) := by
  constructor
  · rintro ⟨c, hc, hch⟩
    unfold process_patch_message
    by_cases h1 : msg.message_id_header.isEmpty = true
    · rw [if_pos h1]
    · rw [if_neg h1, if_pos ?hsome]
      case hsome =>
        unfold find_card_by_message_id_header
        rw [List.find?_isSome]
        exact ⟨c, hc, by rw [decide_eq_true_eq]; exact hch⟩
  · intro db1 sent h hN
    unfold process_patch_message at h
    split at h
    · cases h
      exact hN
    · rename_i h2
      split at h
      · cases h
        exact hN
      · rename_i h3
        have hfind : find_card_by_message_id_header db.patchCards
            msg.message_id_header = none := by
          rw [Bool.not_eq_true] at h3
          exact Option.not_isSome_iff_eq_none.mp (by rw [h3]; decide)
        split at h
        · rename_i r hbody
          cases h
          exact process_patch_message_body_preserves env db msg cls _ _
            hbody hfind hN
        · rename_i e hbody
          split at h
          · cases h
            exact hN
          · cases h

/-- The classification of `single_patch_msg`. -/
def single_patch_cls : Classification :=
  { is_patch := true
    is_reply := false
    is_series_patch := false
    series_message_id := none
    patch_info := some single_patch_info }

/-- A card already stored under the header of `single_patch_msg`. -/
def existing_card : PatchCardData :=
  { message_id_header := ("q1".toList)
    platform_message_id := ("pm0".toList)
    platform_channel_id := ("ch".toList)
    has_thread := true }

/-- A store already holding `existing_card`. -/
def c1_db : DBState :=
  { feedMessages := [], patchCards := [existing_card], patchThreads := [] }

/-- Witness for C1: reprocessing the patch whose card exists leaves the
store unchanged and sends nothing. -/
theorem process_patch_message_idempotent_witness :
    process_patch_message happy_env c1_db single_patch_msg
      single_patch_cls = Except.ok (c1_db, []) :=
  (process_patch_message_idempotent happy_env c1_db single_patch_msg
    single_patch_cls).1 ⟨existing_card, by decide, by decide⟩

/-- Claim C8: series listing construction.  For a cover letter (service
message flagged `is_cover_letter`) with a nonempty series id, the listing
built for card rendering contains exactly the converted stored messages
sharing that `series_message_id`, excluding entries with patch index 0 and
the triggering message itself, and is pairwise ascending in patch index. -/
theorem series_listing_construction (db : DBState) (msg : FeedMessageData)
    (sfm : ServiceFeedMessage) (s : Str) (pinfo : Option PatchInfo)
    (hcl : sfm.is_cover_letter = true) (hse : s ≠ []) :
    (∀ x, x ∈ get_series_patches_for_cover_letter db msg sfm (some s) pinfo ↔
      ∃ p, p ∈ db.feedMessages ∧ p.series_message_id = some s ∧
        p.patch_index ≠ some 0 ∧
        p.message_id_header ≠ msg.message_id_header ∧
        x = series_patch_info_of pinfo p) ∧
    (get_series_patches_for_cover_letter db msg sfm (some s) pinfo).Pairwise
      (fun a b => a.patch_index ≤ b.patch_index) := by
  have hsE : s.isEmpty = false := by
    cases s with
    | nil => exact absurd rfl hse
    | cons c t => rfl
  have hcond : ¬(!(sfm.is_cover_letter && optStrTruthy (some s))) = true := by
    rw [hcl]
    simp [optStrTruthy, hsE]
  unfold get_series_patches_for_cover_letter
  rw [if_neg hcond]
  constructor
  · intro x
    rw [List.mem_insertionSort]
    simp only [List.mem_map, List.mem_filter, find_by_series_message_id,
      Bool.and_eq_true, decide_eq_true_eq]
    constructor
    · rintro ⟨p, ⟨⟨hp, hsid⟩, hidx, hmh⟩, hx⟩
      exact ⟨p, hp, hsid, hidx, hmh, hx.symm⟩
    · rintro ⟨p, hp, hsid, hidx, hmh, hx⟩
      exact ⟨p, ⟨⟨hp, hsid⟩, hidx, hmh⟩, hx.symm⟩
  · haveI : IsTotal SeriesPatchInfo
        (fun a b => a.patch_index ≤ b.patch_index) :=
      ⟨fun a b => Int.le_total a.patch_index b.patch_index⟩
    haveI : IsTrans SeriesPatchInfo
        (fun a b => a.patch_index ≤ b.patch_index) :=
      ⟨fun _ _ _ hab hbc => le_trans hab hbc⟩
    exact List.sorted_insertionSort _ _

/-- A second sub-patch (2/2) of the `cv` series. -/
def sub_patch_msg2 : FeedMessageData :=
  { message_id_header := ("s2".toList)
    is_patch := true
    is_series_patch := true
    patch_index := some 2
    patch_total := some 2
    series_message_id := some ("cv".toList) }

/-- Patch info of the `cv` cover letter. -/
def series_cover_info : PatchInfo :=
  { is_patch := true, is_cover_letter := true, version := none,
    index := some 0, total := some 2 }

/-- The stored `cv` cover letter. -/
def series_cover_msg : FeedMessageData :=
  { message_id_header := ("cv".toList)
    is_patch := true
    is_series_patch := true
    is_cover_letter := true
    patch_index := some 0
    patch_total := some 2
    series_message_id := some ("cv".toList) }

/-- Service message of the `cv` cover letter. -/
def series_cover_sfm : ServiceFeedMessage :=
  convert_to_service_feed_message series_cover_msg (some series_cover_info)
    (some ("cv".toList))

/-- A store holding the cover letter and its two sub-patches, out of
order. -/
def c8_db : DBState :=
  { feedMessages := [series_cover_msg, sub_patch_msg2, sub_patch_msg],
    patchCards := [], patchThreads := [] }

/-- Witness for C8: the listing for the concrete `cv` series is sorted
ascending by patch index. -/
theorem series_listing_construction_witness :
    (get_series_patches_for_cover_letter c8_db series_cover_msg
      series_cover_sfm (some ("cv".toList))
      (some series_cover_info)).Pairwise
      (fun a b => a.patch_index ≤ b.patch_index) :=
  (series_listing_construction c8_db series_cover_msg series_cover_sfm
    ("cv".toList) (some series_cover_info) rfl (by decide)).2

/-- The `_find_parent_reply_in_list` only ever returns a key of the reply
map. -/
theorem find_parent_reply_in_list_mem (db : List FeedMessageData) :
    ∀ (d : Nat) (irt : Option Str) (m : List (Str × ReplyMapEntry))
      (pid p : Str),
    find_parent_reply_in_list db d irt m pid = some p →
    p ∈ m.map (·.1) := by
  intro d
  induction d with
  | zero =>
    intro irt m pid p h
    simp [find_parent_reply_in_list] at h
  | succ n ih =>
    intro irt m pid p h
    unfold find_parent_reply_in_list at h
    split at h
    · cases h
    · split at h
      · cases h
      · split at h
        · cases h
        · split at h
          · rename_i hmem
            cases h
            unfold reply_map_mem at hmem
            rcases List.any_eq_true.mp hmem with ⟨kv, hkv, hdec⟩
            rw [decide_eq_true_eq] at hdec
            exact List.mem_map.mpr ⟨kv, hkv, hdec⟩
          · split at h
            · rename_i rid hfz
              cases h
              exact List.mem_of_find?_eq_some hfz
            · split at h
              · split at h
                · exact ih _ m pid p h
                · cases h
              · cases h

/-- Appending a child under an absent key is a no-op. -/
theorem append_child_of_not_mem (m : List (Str × ReplyMapEntry))
    (pid cid : Str) (hnot : ∀ kv ∈ m, kv.1 ≠ pid) :
    append_child m pid cid = m := by
  unfold append_child
  have hcg : ∀ kv ∈ m, (if kv.1 = pid then
      (kv.1, { kv.2 with children := kv.2.children ++ [cid] }) else kv) =
      kv := by
    intro kv hkv
    rw [if_neg (hnot kv hkv)]
  rw [List.map_congr_left hcg]
  exact List.map_id m

/-- The `append_child` never changes the keys of the reply map. -/
theorem append_child_keys (m : List (Str × ReplyMapEntry)) (pid cid : Str) :
    (append_child m pid cid).map (·.1) = m.map (·.1) := by
  unfold append_child
  rw [List.map_map]
  apply List.map_congr_left
  intro kv _
  by_cases hk : kv.1 = pid
  · simp [hk]
  · simp [hk]

/-- The `append_child` under a unique present key adds the child id exactly
once to the combined children lists. -/
theorem append_child_join_count (m : List (Str × ReplyMapEntry))
    (pid cid : Str) (hN : (m.map (·.1)).Nodup)
    (hmem : pid ∈ m.map (·.1)) :
    ∀ x, (((append_child m pid cid).map
        (fun kv => kv.2.children)).flatten).count x =
      ((m.map (fun kv => kv.2.children)).flatten).count x +
        (if x = cid then 1 else 0) := by
  induction m with
  | nil => simp at hmem
  | cons kv t ih =>
    intro x
    rw [List.map_cons, List.nodup_cons] at hN
    by_cases hk : kv.1 = pid
    · have htail : ∀ kv2 ∈ t, kv2.1 ≠ pid := by
        intro kv2 hkv2 hkv2e
        exact hN.1 (hk ▸ hkv2e ▸ List.mem_map_of_mem (·.1) hkv2)
      unfold append_child
      rw [List.map_cons, if_pos hk]
      rw [show (t.map fun kv => if kv.1 = pid then
          (kv.1, { kv.2 with children := kv.2.children ++ [cid] }) else kv) =
          append_child t pid cid from rfl]
      rw [append_child_of_not_mem t pid cid htail]
      simp only [List.map_cons, List.flatten_cons]
      rw [List.count_append, List.count_append, List.count_append]
      by_cases hx : x = cid
      · simp [hx]
        omega
      · simp [hx]
    · have hmem2 : pid ∈ t.map (·.1) := by
        rcases List.mem_cons.mp hmem with heq | hm
        · exact absurd heq.symm hk
        · exact hm
      unfold append_child
      rw [List.map_cons, if_neg hk]
      rw [show (t.map fun kv => if kv.1 = pid then
          (kv.1, { kv.2 with children := kv.2.children ++ [cid] }) else kv) =
          append_child t pid cid from rfl]
      simp only [List.map_cons, List.flatten_cons]
      rw [List.count_append, List.count_append]
      rw [ih hN.2 hmem2 x]
      omega

/-- One iteration of the hierarchy loop keeps the reply-map keys and adds
the processed reply id exactly once to the combined root and children
lists. -/
theorem place_reply_spec (db : List FeedMessageData) (pid : Str)
    (m : List (Str × ReplyMapEntry)) (roots : List Str)
    (reply : FeedMessageData) (hN : (m.map (·.1)).Nodup) :
    ((place_reply db pid (m, roots) reply).1.map (·.1) = m.map (·.1)) ∧
    ∀ x, ((place_reply db pid (m, roots) reply).2 ++
        ((place_reply db pid (m, roots) reply).1.map
          (fun kv => kv.2.children)).flatten).count x =
      (roots ++ (m.map (fun kv => kv.2.children)).flatten).count x +
        (if x = reply.message_id_header then 1 else 0) := by
  have hroot : ∀ x, ((roots ++ [reply.message_id_header]) ++
      (m.map (fun kv => kv.2.children)).flatten).count x =
      (roots ++ (m.map (fun kv => kv.2.children)).flatten).count x +
        (if x = reply.message_id_header then 1 else 0) := by
    intro x
    rw [List.count_append, List.count_append, List.count_append]
    by_cases hx : x = reply.message_id_header
    · simp [hx]
      omega
    · simp [hx]
  simp only [place_reply]
  split
  · exact ⟨rfl, hroot⟩
  · split
    · exact ⟨rfl, hroot⟩
    · split
      · exact ⟨rfl, hroot⟩
      · split
        · rename_i parent_id hpar
          have hmem : parent_id ∈ m.map (·.1) :=
            find_parent_reply_in_list_mem db 5 reply.in_reply_to_header m
              pid parent_id hpar
          constructor
          · show (append_child m parent_id
                reply.message_id_header).map (·.1) = m.map (·.1)
            exact append_child_keys m parent_id reply.message_id_header
          · intro x
            show (roots ++ ((append_child m parent_id
                reply.message_id_header).map
                (fun kv => kv.2.children)).flatten).count x =
              (roots ++ (m.map (fun kv => kv.2.children)).flatten).count x +
                (if x = reply.message_id_header then 1 else 0)
            rw [List.count_append, List.count_append,
              append_child_join_count m parent_id reply.message_id_header
                hN hmem x]
            omega
        · exact ⟨rfl, hroot⟩

/-- The hierarchy loop keeps the reply-map keys and adds each processed
reply id exactly once overall. -/
theorem place_reply_fold_spec (db : List FeedMessageData) (pid : Str) :
    ∀ (replies : List FeedMessageData) (m : List (Str × ReplyMapEntry))
      (roots : List Str), (m.map (·.1)).Nodup →
    ((replies.foldl (place_reply db pid) (m, roots)).1.map (·.1) =
      m.map (·.1)) ∧
    ∀ x, ((replies.foldl (place_reply db pid) (m, roots)).2 ++
        ((replies.foldl (place_reply db pid) (m, roots)).1.map
          (fun kv => kv.2.children)).flatten).count x =
      (roots ++ (m.map (fun kv => kv.2.children)).flatten).count x +
        (replies.map (·.message_id_header)).count x := by
  intro replies
  induction replies with
  | nil =>
    intro m roots hN
    constructor
    · rfl
    · intro x
      simp
  | cons r rest ih =>
    intro m roots hN
    rw [List.foldl_cons]
    have hstep := place_reply_spec db pid m roots r hN
    have hN2 : ((place_reply db pid (m, roots) r).1.map (·.1)).Nodup := by
      rw [hstep.1]
      exact hN
    have hfold := ih (place_reply db pid (m, roots) r).1
      (place_reply db pid (m, roots) r).2 hN2
    rw [show place_reply db pid (m, roots) r =
      ((place_reply db pid (m, roots) r).1,
       (place_reply db pid (m, roots) r).2) from rfl]
    constructor
    · rw [hfold.1, hstep.1]
    · intro x
      rw [hfold.2 x, hstep.2 x, List.map_cons, List.count_cons]
      by_cases hx : x = r.message_id_header
      · subst hx
        simp only [beq_self_eq_true, if_true, if_pos rfl]
        omega
      · rw [if_neg hx, if_neg (by rw [beq_iff_eq]; exact fun h => hx h.symm)]
        omega

/-- Building the initial reply map appends one entry per reply, in order,
with empty children lists. -/
theorem dict_insert_fold_spec :
    ∀ (replies : List FeedMessageData) (m : List (Str × ReplyMapEntry)),
    (replies.map (·.message_id_header)).Nodup →
    (∀ r ∈ replies, r.message_id_header ∉ m.map (·.1)) →
    (∀ kv ∈ m, kv.2.children = ([] : List Str)) →
    ((replies.foldl (fun m reply => dict_insert m reply.message_id_header
        { reply := reply, children := [] }) m).map (·.1) =
      m.map (·.1) ++ replies.map (·.message_id_header)) ∧
    (∀ kv ∈ replies.foldl (fun m reply => dict_insert m
        reply.message_id_header { reply := reply, children := [] }) m,
      kv.2.children = ([] : List Str)) := by
  intro replies
  induction replies with
  | nil =>
    intro m _ _ hch
    exact ⟨by simp, hch⟩
  | cons r rest ih =>
    intro m hd hfresh hch
    rw [List.foldl_cons]
    have hany : m.any (fun kv => decide (kv.1 = r.message_id_header)) =
        false := by
      rw [List.any_eq_false]
      intro kv hkv
      rw [decide_eq_true_eq]
      intro hkve
      exact hfresh r (List.mem_cons_self r rest)
        (hkve ▸ List.mem_map_of_mem (·.1) hkv)
    have hins : dict_insert m r.message_id_header
        { reply := r, children := [] } =
        m ++ [(r.message_id_header, { reply := r, children := [] })] := by
      unfold dict_insert
      rw [if_neg (by rw [hany]; exact Bool.false_ne_true)]
    rw [hins]
    rw [List.map_cons, List.nodup_cons] at hd
    have hfresh2 : ∀ r2 ∈ rest, r2.message_id_header ∉
        (m ++ [(r.message_id_header,
          ({ reply := r, children := [] } : ReplyMapEntry))]).map
          (·.1) := by
      intro r2 hr2 hmem
      rw [List.map_append] at hmem
      rcases List.mem_append.mp hmem with hm | hs
      · exact hfresh r2 (List.mem_cons_of_mem r hr2) hm
      · simp only [List.map_cons, List.map_nil, List.mem_singleton] at hs
        exact hd.1 (hs ▸ List.mem_map_of_mem (·.message_id_header) hr2)
    have hch2 : ∀ kv ∈ m ++ [(r.message_id_header,
        ({ reply := r, children := [] } : ReplyMapEntry))],
        kv.2.children = ([] : List Str) := by
      intro kv hkv
      rcases List.mem_append.mp hkv with hm | hs
      · exact hch kv hm
      · rw [List.mem_singleton] at hs
        subst hs
        rfl
    have := ih (m ++ [(r.message_id_header,
      { reply := r, children := [] })]) hd.2 hfresh2 hch2
    refine ⟨?_, this.2⟩
    rw [this.1, List.map_append]
    simp

/-- Re-sorting children preserves the reply-map keys. -/
theorem map_update_children_keys (m1 : List (Str × ReplyMapEntry))
    (f : List Str → List Str) :
    ((m1.map (fun kv => (kv.1,
      { kv.2 with children := f kv.2.children }))).map (·.1)) =
      m1.map (·.1) := by
  rw [List.map_map]
  apply List.map_congr_left
  intro kv _
  rfl

/-- Re-sorting each children list permutes the combined children. -/
theorem map_update_children_flatten_perm (m1 : List (Str × ReplyMapEntry))
    (f : List Str → List Str) (hf : ∀ l, (f l).Perm l) :
    (((m1.map (fun kv => (kv.1,
      { kv.2 with children := f kv.2.children }))).map
        (fun kv => kv.2.children)).flatten).Perm
      ((m1.map (fun kv => kv.2.children)).flatten) := by
  induction m1 with
  | nil => simp
  | cons kv t ih =>
    simp only [List.map_cons, List.flatten_cons]
    exact (hf kv.2.children).append ih

/-- The two `BEq` views of string equality agree. -/
theorem str_beq_bridge (x a : Str) :
    (@BEq.beq Str instBEqOfDecidableEq x a) = (x == a) := by
  show decide (x = a) = (x == a)
  by_cases h : x = a
  · subst h
    simp
  · rw [decide_eq_false h]
    exact (beq_eq_false_iff_ne.mpr h).symm

/-- Counting is independent of which lawful `BEq` instance is used. -/
theorem str_count_bridge (x : Str) (l : List Str) :
    @List.count Str instBEqOfDecidableEq x l = l.count x := by
  show List.countP (fun b => @BEq.beq Str instBEqOfDecidableEq b x) l =
    List.countP (fun b => b == x) l
  apply List.countP_congr
  intro b _
  rw [str_beq_bridge b x]

/-- Permutations preserve counts, stated for the default instance. -/
theorem perm_count_default {l₁ l₂ : List Str} (h : l₁.Perm l₂) (x : Str) :
    l₁.count x = l₂.count x := by
  rw [← str_count_bridge, ← str_count_bridge]
  exact h.count_eq x

/-- Claim C10 as amended: for pairwise-distinct input ids,
`build_reply_hierarchy_internal` produces a reply map whose keys are
exactly the input ids in order, and the root list together with all
children lists combined is a permutation of the input ids — each id is
placed exactly once, though the children list holding it may be the
reply's own when its reference chain resolves back to itself. -/
theorem reply_hierarchy_partition_amended (db : List FeedMessageData)
    (patch_replies : List FeedMessageData) (patch_message_id : Str)
    (hdist : (patch_replies.map (·.message_id_header)).Nodup) :
    ((build_reply_hierarchy_internal db patch_replies
        patch_message_id).reply_map.map (·.1) =
      patch_replies.map (·.message_id_header)) ∧
    ((build_reply_hierarchy_internal db patch_replies
        patch_message_id).root_replies ++
      ((build_reply_hierarchy_internal db patch_replies
        patch_message_id).reply_map.map
        (fun kv => kv.2.children)).flatten).Perm
      (patch_replies.map (·.message_id_header)) := by
  have hm0 := dict_insert_fold_spec patch_replies [] hdist (by simp)
    (by simp)
  have hkeys0 : (patch_replies.foldl (fun m reply => dict_insert m
      reply.message_id_header { reply := reply, children := [] })
      []).map (·.1) = patch_replies.map (·.message_id_header) := by
    rw [hm0.1]
    simp
  have hN0 : ((patch_replies.foldl (fun m reply => dict_insert m
      reply.message_id_header { reply := reply, children := [] })
      []).map (·.1)).Nodup := by
    rw [hkeys0]
    exact hdist
  have hfold := place_reply_fold_spec db patch_message_id patch_replies
    (patch_replies.foldl (fun m reply => dict_insert m
      reply.message_id_header { reply := reply, children := [] }) [])
    [] hN0
  have hflat0 : (((patch_replies.foldl (fun m reply => dict_insert m
      reply.message_id_header { reply := reply, children := [] })
      []).map (fun kv => kv.2.children)).flatten) = [] := by
    rw [List.flatten_eq_nil_iff]
    intro l hl
    rcases List.mem_map.mp hl with ⟨kv, hkv, hlv⟩
    rw [← hlv]
    exact hm0.2 kv hkv
  rcases hpair : patch_replies.foldl (place_reply db patch_message_id)
    (patch_replies.foldl (fun m reply => dict_insert m
      reply.message_id_header { reply := reply, children := [] }) [], [])
    with ⟨m1, r1⟩
  rw [hpair] at hfold
  dsimp only at hfold
  simp only [build_reply_hierarchy_internal, hpair]
  constructor
  · rw [map_update_children_keys, hfold.1, hkeys0]
  · apply List.perm_iff_count.mpr
    intro x
    rw [str_count_bridge, str_count_bridge, List.count_append]
    rw [perm_count_default (map_update_children_flatten_perm m1 _
      (fun l => List.perm_insertionSort _ l)) x]
    rw [perm_count_default (List.perm_insertionSort _ r1) x]
    have hc := hfold.2 x
    rw [List.count_append, hflat0] at hc
    simp only [List.count_nil, List.append_nil] at hc
    omega

/-- A reply whose `in_reply_to_header` references itself. -/
def self_reply : FeedMessageData :=
  { message_id_header := ("r1".toList)
    in_reply_to_header := some ("<r1>".toList)
    is_reply := true }

/-- Claim C10, counterexample: for the single self-referential reply `r1`
the hierarchy places the id neither in `root_replies` nor in the children
list of another reply — the only key is `r1` itself and the id sits in its
own children list, so a tree rendered from the roots drops it. -/
theorem reply_hierarchy_partition_counterexample :
    (build_reply_hierarchy_internal [] [self_reply]
      ("p0".toList)).root_replies = [] ∧
    (lookup_entry (build_reply_hierarchy_internal [] [self_reply]
      ("p0".toList)).reply_map ("r1".toList)).map (·.children) =
      some [("r1".toList)] ∧
    (build_reply_hierarchy_internal [] [self_reply]
      ("p0".toList)).reply_map.map (·.1) = [("r1".toList)] := by
  refine ⟨by decide, by decide, by decide⟩

/-- Witness for the amended C10, instantiated at the one-element input. -/
theorem reply_hierarchy_partition_amended_witness :
    (build_reply_hierarchy_internal [] [self_reply]
      ("p0".toList)).reply_map.map (·.1) =
      [self_reply].map (·.message_id_header) :=
  (reply_hierarchy_partition_amended [] [self_reply] ("p0".toList)
    (by decide)).1

end LkmlBot
